import Mathlib

/-!
Verification of the MBTA accessibility-tracker prototype
(`accessibility_tracker_prototype.py`).

The Python source is shallowly embedded below.  JSON objects coming from the
transit API are modelled as Lean structures whose fields are `Option`-valued
exactly where the source accesses them with defaulting (`dict.get`).  Python
`dict`s keyed by strings are modelled as association lists
(`List (key × value)`) with Python-`dict` semantics: an update of an existing
key keeps its position, iteration follows first-insertion order.  Network
fetches are I/O and are therefore passed in as arguments (the already-decoded
response bodies, or `Except`-valued oracles for the fallible calls); the
ambient clock read by `datetime.utcnow()` is passed in as an explicit `now`
argument measured in whole seconds since the Unix epoch.  Python `float`
arithmetic inside `_format_duration` is modelled exactly over `ℚ`.
-/

/-- One entry of an alert's `active_period` list (`{"start": …, "end": …}`). -/
structure ActivePeriod where
  start : Option String
  stop : Option String
  deriving DecidableEq, Repr

/-- One entry of an alert's `informed_entity` list; a key that may be absent
from the JSON object is an `Option` field. -/
structure InformedEntity where
  facility : Option String
  stop : Option String
  deriving DecidableEq, Repr

/-- The `attributes` object of an alert resource. -/
structure AlertAttributes where
  informed_entity : List InformedEntity
  active_period : List ActivePeriod
  header : Option String
  description : Option String
  severity : Option Int
  cause : Option String
  effect : Option String
  updated_at : Option String
  deriving DecidableEq, Repr

/-- An alert resource from the `/alerts` response. -/
structure Alert where
  id : String
  attributes : AlertAttributes
  deriving DecidableEq, Repr

/-- The decoded body of `fetch_accessibility_alerts()` (its `data` list). -/
structure AlertsResponse where
  data : List Alert
  deriving DecidableEq, Repr

/-- The `attributes` object of a facility resource. -/
structure FacilityAttributes where
  type : Option String
  long_name : Option String
  short_name : Option String
  deriving DecidableEq, Repr

/-- A facility resource from the `/facilities` response.  `relStopId` embeds
the chained lookup
`item.get("relationships", {}).get("stop", {}).get("data", {}).get("id")`:
`none` when any level of the chain is missing. -/
structure FacilityItem where
  id : String
  attributes : FacilityAttributes
  relStopId : Option String
  deriving DecidableEq, Repr

/-- An entry of the `included` list of the `/facilities` response (only
entries with `type == "stop"` are consumed by the source). -/
structure IncludedStop where
  type : String
  id : String
  name : Option String
  latitude : Option Rat
  longitude : Option Rat
  deriving DecidableEq, Repr

/-- The decoded body of `fetch_facilities()`. -/
structure FacilitiesResponse where
  data : List FacilityItem
  included : List IncludedStop
  deriving DecidableEq, Repr

/-- The `alert_summary` dict built inside `build_accessibility_status` /
`get_data_for_app`. -/
structure AlertSummary where
  id : String
  header : Option String
  description : Option String
  severity : Option Int
  cause : Option String
  effect : Option String
  updated_at : Option String
  active_period : List ActivePeriod
  outage_start : Option String
  deriving DecidableEq, Repr

/-- A reconciled facility record (the per-facility dict of the source). -/
structure Facility where
  id : String
  type : Option String
  name : Option String
  short_name : Option String
  stop_id : Option String
  station_name : String
  status : String
  alert : Option AlertSummary
  deriving DecidableEq, Repr

/-- The value stored in `stops_lookup` by `get_data_for_app`. -/
structure StopInfo where
  name : String
  latitude : Option Rat
  longitude : Option Rat
  deriving DecidableEq, Repr

/-- A per-station counter pair from `station_counts`. -/
structure Counts where
  operational : Nat
  out_of_service : Nat
  deriving DecidableEq, Repr

/-- A station record of the `stations` list returned by `get_data_for_app`. -/
structure Station where
  id : String
  name : String
  lat : Rat
  lon : Rat
  n_operational : Nat
  n_out_of_service : Nat
  deriving DecidableEq, Repr

/-- A reduced service alert as produced by `fetch_route_alerts`. -/
structure ServiceAlert where
  header : String
  effect : String
  description : String
  active_period : List ActivePeriod
  deriving DecidableEq, Repr

/-- The `system_stats` dict computed by `generate_station_report`. -/
structure SystemStats where
  total_stations : Nat
  stations_with_outages : Nat
  total_facilities : Nat
  total_out_of_service : Nat
  deriving DecidableEq, Repr

/-- The return value of `get_data_for_app`. -/
structure AppData where
  facilities : List (String × Facility)
  stations : List Station
  deriving DecidableEq, Repr

/-! ### Python `dict` as an association list -/

/-- `d[k]` lookup (`none` when the key is absent). -/
def dlookup {κ α : Type} [DecidableEq κ] (k : κ) : List (κ × α) → Option α
  | [] => none
  | (k', v) :: rest => if k' = k then some v else dlookup k rest

/-- `d[k] = v`: replace in place when the key exists (Python dicts keep the
original position of an updated key), append otherwise. -/
def dinsert {κ α : Type} [DecidableEq κ] (k : κ) (v : α) : List (κ × α) → List (κ × α)
  | [] => [(k, v)]
  | (k', v') :: rest => if k' = k then (k', v) :: rest else (k', v') :: dinsert k v rest

/-- In-place mutation `g` of the value stored at `k` (no-op when absent). -/
def dmodify {κ α : Type} [DecidableEq κ] (k : κ) (g : α → α) : List (κ × α) → List (κ × α)
  | [] => []
  | (k', v) :: rest => if k' = k then (k', g v) :: rest else (k', v) :: dmodify k g rest

/-! ### Status reconciliation (`build_accessibility_status`, `get_data_for_app`) -/

/-- `extract_facility_ids_from_alert`. -/
def extract_facility_ids_from_alert (alert : Alert) : List String :=
  alert.attributes.informed_entity.filterMap InformedEntity.facility

/-- The `alert_summary` dict built from one alert (shared verbatim by
`build_accessibility_status` and `get_data_for_app`). -/
def mkAlertSummary (alert : Alert) : AlertSummary :=
  { id := alert.id
    header := alert.attributes.header
    description := alert.attributes.description
    severity := alert.attributes.severity
    cause := alert.attributes.cause
    effect := alert.attributes.effect
    updated_at := alert.attributes.updated_at
    active_period := alert.attributes.active_period
    outage_start :=
      match alert.attributes.active_period with
      | [] => none
      | p :: _ => p.start }

/-- The two assignments performed on a facility entry referenced by an alert. -/
def setAlert (alert : Alert) (f : Facility) : Facility :=
  { f with status := "out_of_service", alert := some (mkAlertSummary alert) }

/-- The inner loop `for facility_id in affected_facility_ids: if facility_id
in facilities: …`, generalised over the update applied to the entry. -/
def markFac (g : Facility → Facility) (m : List (String × Facility)) :
    List String → List (String × Facility)
  | ids => ids.foldl (fun m fid => if (dlookup fid m).isSome then dmodify fid g m else m) m

/-- One iteration of `for alert in alerts_data.get("data", [])`. -/
def markAlert (m : List (String × Facility)) (alert : Alert) : List (String × Facility) :=
  markFac (setAlert alert) m (extract_facility_ids_from_alert alert)

/-- The whole alert-marking pass. -/
def markAlerts (m : List (String × Facility)) (alerts : List Alert) : List (String × Facility) :=
  alerts.foldl markAlert m

/-- The `stops_lookup` of `build_accessibility_status` (station names only). -/
def stopsLookupNames (fd : FacilitiesResponse) : List (String × String) :=
  fd.included.foldl
    (fun m inc => if inc.type = "stop" then dinsert inc.id (inc.name.getD "Unknown") m else m) []

/-- The facility-inventory loop of `build_accessibility_status`. -/
def initFacilities (fd : FacilitiesResponse) : List (String × Facility) :=
  fd.data.foldl
    (fun m item =>
      dinsert item.id
        { id := item.id
          type := item.attributes.type
          name := item.attributes.long_name
          short_name := item.attributes.short_name
          stop_id := item.relStopId
          station_name :=
            match item.relStopId with
            | some sid => (dlookup sid (stopsLookupNames fd)).getD "Unknown"
            | none => "Unknown"
          status := "operational"
          alert := none } m)
    []

/-- `build_accessibility_status`, as a function of the two fetched response
bodies. -/
def build_accessibility_status (fd : FacilitiesResponse) (ad : AlertsResponse) :
    List (String × Facility) :=
  markAlerts (initFacilities fd) ad.data

/-- One iteration of the `stops_lookup` loop of `get_data_for_app`. -/
def stopsInfoStep (m : List (String × StopInfo)) (inc : IncludedStop) :
    List (String × StopInfo) :=
  if inc.type = "stop" then
    dinsert inc.id
      { name := inc.name.getD "Unknown"
        latitude := inc.latitude
        longitude := inc.longitude } m
  else m

/-- The `stops_lookup` of `get_data_for_app` (name and coordinates). -/
def stopsLookupInfo (fd : FacilitiesResponse) : List (String × StopInfo) :=
  fd.included.foldl stopsInfoStep []

/-- The facility-inventory loop of `get_data_for_app` (identical to
`build_accessibility_status` except that the station name comes from the
richer `stops_lookup`). -/
def initFacilitiesApp (fd : FacilitiesResponse) : List (String × Facility) :=
  fd.data.foldl
    (fun m item =>
      dinsert item.id
        { id := item.id
          type := item.attributes.type
          name := item.attributes.long_name
          short_name := item.attributes.short_name
          stop_id := item.relStopId
          station_name :=
            match item.relStopId with
            | some sid =>
              match dlookup sid (stopsLookupInfo fd) with
              | some info => info.name
              | none => "Unknown"
            | none => "Unknown"
          status := "operational"
          alert := none } m)
    []

/-- One iteration of the `station_counts` loop of `get_data_for_app`:
initialise the entry for this facility's `stop_id` if absent, then increment
the counter matching its status. -/
def stationCountStep (m : List (Option String × Counts)) (f : Facility) :
    List (Option String × Counts) :=
  let m := if (dlookup f.stop_id m).isSome then m else dinsert f.stop_id ⟨0, 0⟩ m
  dmodify f.stop_id
    (fun c =>
      if f.status = "operational" then { c with operational := c.operational + 1 }
      else { c with out_of_service := c.out_of_service + 1 }) m

/-- The `station_counts` accumulation loop of `get_data_for_app`; keys are the
facilities' `stop_id` values (possibly `None`). -/
def stationCounts (fs : List Facility) : List (Option String × Counts) :=
  fs.foldl stationCountStep []

/-- The `stations` list of `get_data_for_app`: one record per `stops_lookup`
entry with both coordinates present. -/
def stationsList (fd : FacilitiesResponse) (facs : List (String × Facility)) : List Station :=
  (stopsLookupInfo fd).filterMap
    (fun entry =>
      match entry.2.latitude, entry.2.longitude with
      | some lat, some lon =>
        let counts := (dlookup (some entry.1) (stationCounts (facs.map Prod.snd))).getD ⟨0, 0⟩
        some
          { id := entry.1
            name := entry.2.name
            lat := lat
            lon := lon
            n_operational := counts.operational
            n_out_of_service := counts.out_of_service }
      | _, _ => none)

/-- `get_data_for_app`, as a function of the two fetched response bodies. -/
def get_data_for_app (fd : FacilitiesResponse) (ad : AlertsResponse) : AppData :=
  let facilities := markAlerts (initFacilitiesApp fd) ad.data
  { facilities := facilities
    stations := stationsList fd facilities }

/-! ### Character-level models of the Python string operations

Python's `str.strip()`, `str.lower()` and slicing act on the character
sequence, so they are modelled on `String.data` directly (this also keeps
every definition reducible by the kernel). -/

/-- Python `s.strip()`: drop leading and trailing whitespace. -/
def pyStrip (s : String) : String :=
  { data := ((s.data.dropWhile Char.isWhitespace).reverse.dropWhile Char.isWhitespace).reverse }

/-- Python `s.lower()` (ASCII case mapping, as `Char.toLower`). -/
def pyLower (s : String) : String :=
  { data := s.data.map Char.toLower }

/-- Python `s[:n]`: the first `n` characters. -/
def pySlice (s : String) (n : Nat) : String :=
  { data := s.data.take n }

/-! ### Service-alert filtering (`fetch_route_alerts`) -/

/-- The fixed high-impact effect set of `fetch_route_alerts`. -/
def keep_effects : List String :=
  ["SHUTTLE", "SUSPENSION", "DETOUR", "SERVICE_CHANGE", "STOP_CLOSURE", "STOP_MOVE",
   "STATION_ISSUE"]

/-- The loop body of `fetch_route_alerts`: `continue` when the effect is not
high-impact, `continue` when a `STATION_ISSUE` alert's informed-entity stops
do not name the queried stop, otherwise append the reduced alert. -/
def routeAlertStep (stop_id : String) (acc : List ServiceAlert) (alert : Alert) :
    List ServiceAlert :=
  let attr := alert.attributes
  let effect := attr.effect.getD ""
  if effect ∉ keep_effects then acc
  else
    let header := attr.header.getD ""
    if effect = "STATION_ISSUE" ∧
        stop_id ∉ attr.informed_entity.filterMap InformedEntity.stop then acc
    else
      acc ++
        [{ header := header
           effect := effect
           description := pyStrip (attr.description.getD "")
           active_period := attr.active_period }]

/-- The pure part of `fetch_route_alerts`: the two HTTP fetches are I/O, so
the discovered route ids and the decoded alerts response are arguments.  An
empty route discovery short-circuits to `[]` before any alert fetch. -/
def fetch_route_alerts (stop_id : String) (route_ids : List String) (ad : AlertsResponse) :
    List ServiceAlert :=
  if route_ids = [] then []
  else ad.data.foldl (routeAlertStep stop_id) []

/-! ### Timestamps and `_format_duration`

`datetime.fromisoformat` is modelled for the string shapes that survive the
source's `[:19]` slice: `YYYY-MM-DD`, optionally followed by any single
separator character and `HH`, `HH:MM` or `HH:MM:SS`, with the field ranges
`datetime` enforces.  A parsed timestamp is its count of whole seconds since
the Unix epoch (an `Int`, so pre-1970 dates work). -/

/-- Numeric value of a decimal digit character, if it is one. -/
def digitVal? : Option Char → Option Nat
  | some c => if c.isDigit then some (c.toNat - 48) else none
  | none => none

/-- Two decimal digits starting at index `i`. -/
def num2 (cs : List Char) (i : Nat) : Option Nat := do
  let a ← digitVal? cs[i]?
  let b ← digitVal? cs[i + 1]?
  pure (10 * a + b)

/-- Four decimal digits starting at index `i`. -/
def num4 (cs : List Char) (i : Nat) : Option Nat := do
  let a ← num2 cs i
  let b ← num2 cs (i + 2)
  pure (100 * a + b)

/-- Gregorian leap-year test. -/
def isLeapYear (y : Nat) : Bool :=
  (y % 4 == 0 && !(y % 100 == 0)) || y % 400 == 0

/-- Number of days in a month. -/
def daysInMonth (y m : Nat) : Nat :=
  if m = 2 then (if isLeapYear y then 29 else 28)
  else if m = 4 ∨ m = 6 ∨ m = 9 ∨ m = 11 then 30
  else 31

/-- Days between a civil date and 1970-01-01 (the standard days-from-civil
algorithm; all intermediate quantities are nonnegative because `y ≥ 1`). -/
def daysFromCivil (y m d : Nat) : Int :=
  let yAdj := if m ≤ 2 then y - 1 else y
  let era := yAdj / 400
  let yoe := yAdj - era * 400
  let mp := (m + 9) % 12
  let doy := (153 * mp + 2) / 5 + (d - 1)
  let doe := yoe * 365 + yoe / 4 - yoe / 100 + doy
  (era * 146097 + doe : Int) - 719468

/-- Model of `datetime.fromisoformat` (see the section comment), returning
whole seconds since the Unix epoch. -/
def fromisoformat (s : String) : Option Int := do
  let cs := s.toList
  let n := cs.length
  guard (n = 10 ∨ n = 13 ∨ n = 16 ∨ n = 19)
  let y ← num4 cs 0
  guard (cs[4]? = some '-')
  let mo ← num2 cs 5
  guard (cs[7]? = some '-')
  let d ← num2 cs 8
  guard (1 ≤ y ∧ 1 ≤ mo ∧ mo ≤ 12 ∧ 1 ≤ d ∧ d ≤ daysInMonth y mo)
  let h ← if 13 ≤ n then num2 cs 11 else pure 0
  let mi ← if 16 ≤ n then do
      guard (cs[13]? = some ':')
      num2 cs 14
    else pure 0
  let sec ← if 19 ≤ n then do
      guard (cs[16]? = some ':')
      num2 cs 17
    else pure 0
  guard (h ≤ 23 ∧ mi ≤ 59 ∧ sec ≤ 59)
  pure (daysFromCivil y mo d * 86400 + ((h * 3600 + mi * 60 + sec : Nat) : Int))

/-- Python `int()` on a rational: truncation toward zero. -/
def pyInt (q : ℚ) : Int := if q < 0 then ⌈q⌉ else ⌊q⌋

/-- Python `f"{q:.1f}"` for a nonnegative value; the binary64 rounding of the
source is modelled as exact rounding (ties away from zero) of the rational. -/
def format1f (q : ℚ) : String :=
  let t : Int := ⌊q * 10 + 1 / 2⌋
  toString (t / 10) ++ "." ++ toString ((t % 10).natAbs)

/-- `_format_duration`, with the moment read from `datetime.utcnow()` passed
explicitly (`now`, whole seconds since the Unix epoch); the `float`
arithmetic of the source is carried out exactly over `ℚ` (`30.44` is
`761 / 25`, `365.25` is `1461 / 4`). -/
def _format_duration (iso_timestamp : Option String) (now : Int) : Option String :=
  match iso_timestamp with
  | none => none
  | some s =>
    if s = "" then none
    else
      match fromisoformat (pySlice s 19) with
      | none => none
      | some start =>
        let minutes : ℚ := ((now : ℚ) - (start : ℚ)) / 60
        if minutes < 0 then some "starting soon"
        else if minutes < 60 then
          let n := pyInt minutes
          some (toString n ++ " minute" ++ (if n ≠ 1 then "s" else ""))
        else
          let hours := minutes / 60
          if hours < 24 then
            let n := pyInt hours
            some (toString n ++ " hour" ++ (if n ≠ 1 then "s" else ""))
          else
            let days := hours / 24
            if days < 30 then
              let n := pyInt days
              some (toString n ++ " day" ++ (if n ≠ 1 then "s" else ""))
            else
              let months := days / (761 / 25 : ℚ)
              if months < 12 then
                let n := pyInt months
                some (toString n ++ " month" ++ (if n ≠ 1 then "s" else ""))
              else
                let years := days / (1461 / 4 : ℚ)
                some (format1f years ++ " years")

/-! ### The briefing prompt (`_build_station_prompt`) -/

/-- `startsWith` on character lists. -/
def startsWithL : List Char → List Char → Bool
  | [], _ => true
  | _ :: _, [] => false
  | a :: as, b :: bs => a == b && startsWithL as bs

/-- Python's substring test `needle in hay`, on character lists. -/
def containsSub (needle : List Char) : List Char → Bool
  | [] => needle.isEmpty
  | c :: rest => startsWithL needle (c :: rest) || containsSub needle rest

/-- Python `str(x)` of a nullable string (`None` prints as `"None"`). -/
def pyStr (o : Option String) : String := o.getD "None"

/-- The Python truthiness chain `x or alt` for nullable strings. -/
def orTruthy (o : Option String) (alt : String) : String :=
  match o with
  | some s => if s = "" then alt else s
  | none => alt

/-- The searchable short identifier
`f"{(f.get('type') or '').lower()} {f.get('id') or ''}"` of a facility. -/
def thisIdOf (f : Facility) : String := pyLower (f.type.getD "") ++ " " ++ f.id

/-- The `out_of_service_ids` set; the Python `set` is modelled as a
duplicate-free list in insertion order (any iteration order would do: the
scan below stops at its first match whichever order is used). -/
def out_of_service_ids (station_facilities : List Facility) : List String :=
  station_facilities.foldl
    (fun acc f =>
      if f.status = "out_of_service" then
        let ftype := pyLower (f.type.getD "")
        let fid := f.id
        if ftype ≠ "" ∧ fid ≠ "" then
          let oid := ftype ++ " " ++ fid
          if oid ∈ acc then acc else acc ++ [oid]
        else acc
      else acc) []

/-- The warning appended when remediation instructions mention another
out-of-service facility. -/
def warnText (oos_id : String) : String :=
  "\n  WARNING: These instructions reference " ++ oos_id ++ " which is ALSO out of service."

/-- One entry of `facility_lines`. -/
def facilityLine (oosIds : List String) (now : Int) (f : Facility) : String :=
  let name := orTruthy f.name (orTruthy f.short_name "")
  let status_label := if f.status = "operational" then "OPERATIONAL" else "OUT OF SERVICE"
  let line := "- " ++ pyStr f.type ++ " \"" ++ name ++ "\": " ++ status_label
  match f.alert with
  | some alert =>
    if f.status ≠ "operational" then
      let line :=
        match _format_duration alert.outage_start now with
        | some duration => line ++ " (down " ++ duration ++ ")"
        | none => line
      let cause := alert.cause.getD ""
      let line := if cause ≠ "" then line ++ "\n  Cause: " ++ cause else line
      let line :=
        if alert.header.getD "" ≠ "" then line ++ "\n  Alert: " ++ alert.header.getD ""
        else line
      let desc := pyStrip (alert.description.getD "")
      if desc ≠ "" then
        let desc_lower := pyLower desc
        let this_id := thisIdOf f
        let line := line ++ "\n  MBTA instructions: " ++ desc
        match oosIds.find?
            (fun oid => containsSub oid.data desc_lower.data && decide (oid ≠ this_id)) with
        | some oid => line ++ warnText oid
        | none => line
      else line
    else line
  | none => line

/-- `"\n".join`. -/
def joinNL : List String → String
  | [] => ""
  | [s] => s
  | s :: rest => s ++ "\n" ++ joinNL rest

/-- One entry of the service-alerts block. -/
def serviceAlertLine (sa : ServiceAlert) : String :=
  let line := "- [" ++ sa.effect ++ "] " ++ sa.header
  if sa.description ≠ "" then line ++ "\n  Details: " ++ pySlice sa.description 300 else line

/-- The part of the prompt template before the facilities block. -/
def promptIntro (station_name : String) (n_elevators n_escalators n_out elevators_out : Nat) :
    String :=
  "I rely on escalators and elevators and I'm about to travel through " ++ station_name ++
    " station. Give me a quick travel briefing based on this data.\n\n" ++
    "Elevators: " ++ toString n_elevators ++ " (" ++ toString elevators_out ++ " out) | " ++
    "Escalators: " ++ toString n_escalators ++ " (" ++
    toString ((n_out : Int) - (elevators_out : Int)) ++ " out)\n\n" ++
    "Facilities:\n"

/-- The part of the prompt template after the facilities block. -/
def promptTail (service_block : String) : String :=
  "\n\n" ++
    "Service alerts:\n" ++ service_block ++ "\n\n" ++
    "In one short paragraph (3-5 sentences), tell me:\n" ++
    "1. Whether I can get from street to platform by elevator right now.\n" ++
    "2. If not, what exactly I should do instead — use specific stop names, " ++
    "bus routes, and distances from the MBTA instructions above. If any " ++
    "instructions have a WARNING, skip them and use a working alternative.\n" ++
    "3. Any service disruptions (shuttles, closures) that affect my trip.\n\n" ++
    "Only use the data above. Write as if talking directly to me. " ++
    "Start with the key information immediately — no greeting or preamble."

/-- `_build_station_prompt`, with `datetime.utcnow()` (reached through
`_format_duration`) passed in as `now`.  The one f-string of the source is
split around the facilities block into `promptIntro` and `promptTail`. -/
def _build_station_prompt (station_name : String) (station_facilities : List Facility)
    (system_stats : SystemStats) (service_alerts : List ServiceAlert) (now : Int) : String :=
  let _ := system_stats
  let n_elevators := station_facilities.countP (fun f => decide (f.type = some "ELEVATOR"))
  let n_escalators := station_facilities.countP (fun f => decide (f.type = some "ESCALATOR"))
  let n_out := station_facilities.countP (fun f => decide (f.status = "out_of_service"))
  let elevators_out := station_facilities.countP
    (fun f => decide (f.type = some "ELEVATOR" ∧ f.status = "out_of_service"))
  let facility_lines :=
    station_facilities.map (facilityLine (out_of_service_ids station_facilities) now)
  let facilities_block := if facility_lines = [] then "(none)" else joinNL facility_lines
  let service_block :=
    if service_alerts = [] then "(none)" else joinNL (service_alerts.map serviceAlertLine)
  promptIntro station_name n_elevators n_escalators n_out elevators_out ++
    facilities_block ++ promptTail service_block

/-! ### Report generation (`generate_station_report`, `_query_ollama`) -/

/-- `_query_ollama`: the HTTP POST to the generation backend is an
`Except`-valued oracle from prompt to response text (an `Except.error` covers
network failures, timeouts, non-2xx responses and malformed bodies alike,
carrying the `str(e)` of the raised exception). -/
def _query_ollama (post : String → Except String String) (prompt : String) :
    Except String String :=
  post prompt

/-- `generate_station_report`.  The two fallible effects inside its `try`
block — the route-alerts fetch and the generation call — enter as `Except`
values; `except Exception as e: return f"__error__: {e}"` becomes the two
`Except.error` branches. -/
def generate_station_report (station_id : String) (facilities : List (String × Facility))
    (stations : List Station) (now : Int)
    (routeAlertsResult : Except String (List ServiceAlert))
    (post : String → Except String String) : String :=
  match routeAlertsResult with
  | Except.error e => "__error__: " ++ e
  | Except.ok service_alerts =>
    let acc := (facilities.map Prod.snd).foldl
      (fun acc f => if f.stop_id = some station_id then (acc.1 ++ [f], f.station_name) else acc)
      ([], station_id)
    let station_facilities := acc.1
    let station_name := acc.2
    let system_stats : SystemStats :=
      { total_stations := stations.length
        stations_with_outages :=
          (stations.filter (fun s => decide (0 < s.n_out_of_service))).length
        total_facilities := facilities.length
        total_out_of_service :=
          ((facilities.map Prod.snd).filter (fun f => decide (f.status = "out_of_service"))).length }
    let prompt := _build_station_prompt station_name station_facilities system_stats
      service_alerts now
    match _query_ollama post prompt with
    | Except.error e => "__error__: " ++ e
    | Except.ok response => response

/-- Modelled from the spec: the repository's most complete prompt-builder
variant is wheelchair-boarding aware (spec §4.4 item 2: if
`wheelchairBoarding == 2`, "prepend an explicit \"NOT ACCESSIBLE\" notice"),
but that snapshot file is not among the provided sources — the provided
`_build_station_prompt` takes no wheelchair-boarding argument.  The wrapper
below follows the spec's words on top of the source's prompt builder. -/
def buildPromptWheelchair (wheelchair_boarding : Nat) (station_name : String)
    (station_facilities : List Facility) (system_stats : SystemStats)
    (service_alerts : List ServiceAlert) (now : Int) : String :=
  let base := _build_station_prompt station_name station_facilities system_stats
    service_alerts now
  if wheelchair_boarding = 2 then
    "NOT ACCESSIBLE: this station is classified as permanently inaccessible.\n\n" ++ base
  else base

/-! ### Lemmas about the dictionary model -/

theorem dlookup_dinsert_self {κ α : Type} [DecidableEq κ] (k : κ) (v : α)
    (m : List (κ × α)) : dlookup k (dinsert k v m) = some v := by
  induction m with
  | nil => simp [dinsert, dlookup]
  | cons p rest ih =>
    obtain ⟨k', v'⟩ := p
    by_cases h : k' = k
    · simp [dinsert, dlookup, h]
    · simp [dinsert, dlookup, h, ih]

theorem dlookup_dinsert_ne {κ α : Type} [DecidableEq κ] (fid k : κ) (v : α)
    (m : List (κ × α)) (h : fid ≠ k) : dlookup fid (dinsert k v m) = dlookup fid m := by
  induction m with
  | nil => simp [dinsert, dlookup, Ne.symm h]
  | cons p rest ih =>
    obtain ⟨k', v'⟩ := p
    by_cases hk : k' = k
    · subst hk
      simp [dinsert, dlookup, Ne.symm h]
    · simp only [dinsert, if_neg hk, dlookup]
      rw [ih]

theorem dlookup_dmodify_self {κ α : Type} [DecidableEq κ] (k : κ) (g : α → α)
    (m : List (κ × α)) : dlookup k (dmodify k g m) = (dlookup k m).map g := by
  induction m with
  | nil => rfl
  | cons p rest ih =>
    obtain ⟨k', v⟩ := p
    by_cases h : k' = k
    · simp [dmodify, dlookup, h]
    · simp [dmodify, dlookup, h, ih]

theorem dlookup_dmodify_ne {κ α : Type} [DecidableEq κ] (fid k : κ) (g : α → α)
    (m : List (κ × α)) (h : fid ≠ k) : dlookup fid (dmodify k g m) = dlookup fid m := by
  induction m with
  | nil => rfl
  | cons p rest ih =>
    obtain ⟨k', v⟩ := p
    by_cases hk : k' = k
    · subst hk
      simp [dmodify, dlookup, Ne.symm h]
    · simp only [dmodify, if_neg hk, dlookup]
      rw [ih]

theorem mem_dinsert {κ α : Type} [DecidableEq κ] (p : κ × α) (k : κ) (v : α)
    (m : List (κ × α)) (h : p ∈ dinsert k v m) : p ∈ m ∨ p.2 = v := by
  induction m with
  | nil => simp [dinsert] at h; simp [h]
  | cons q rest ih =>
    obtain ⟨k', v'⟩ := q
    by_cases hk : k' = k
    · simp [dinsert, hk] at h
      rcases h with h | h
      · simp [h]
      · exact Or.inl (List.mem_cons_of_mem _ h)
    · simp [dinsert, hk] at h
      rcases h with h | h
      · simp [h]
      · rcases ih h with h' | h'
        · exact Or.inl (List.mem_cons_of_mem _ h')
        · exact Or.inr h'

theorem mem_dmodify {κ α : Type} [DecidableEq κ] (p : κ × α) (k : κ) (g : α → α)
    (m : List (κ × α)) (h : p ∈ dmodify k g m) : p ∈ m ∨ ∃ q ∈ m, p.2 = g q.2 := by
  induction m with
  | nil => simp [dmodify] at h
  | cons q rest ih =>
    obtain ⟨k', v⟩ := q
    by_cases hk : k' = k
    · simp [dmodify, hk] at h
      rcases h with h | h
      · exact Or.inr ⟨(k, v), by simp [hk], by simp [h]⟩
      · exact Or.inl (List.mem_cons_of_mem _ h)
    · simp [dmodify, hk] at h
      rcases h with h | h
      · simp [h]
      · rcases ih h with h' | h'
        · exact Or.inl (List.mem_cons_of_mem _ h')
        · obtain ⟨q', hq', he⟩ := h'
          exact Or.inr ⟨q', List.mem_cons_of_mem _ hq', he⟩

/-! ### Lemmas about the alert-marking pass -/

theorem markFac_nil (g : Facility → Facility) (m : List (String × Facility)) :
    markFac g m [] = m := rfl

theorem markFac_cons (g : Facility → Facility) (m : List (String × Facility))
    (i : String) (ids : List String) :
    markFac g m (i :: ids) =
      markFac g (if (dlookup i m).isSome then dmodify i g m else m) ids := rfl

theorem markFac_lookup_not_mem (g : Facility → Facility) (ids : List String)
    (m : List (String × Facility)) (fid : String) (h : fid ∉ ids) :
    dlookup fid (markFac g m ids) = dlookup fid m := by
  induction ids generalizing m with
  | nil => rfl
  | cons i rest ih =>
    have hne : fid ≠ i := fun he => h (he ▸ List.mem_cons_self i rest)
    have hrest : fid ∉ rest := fun hm => h (List.mem_cons_of_mem _ hm)
    rw [markFac_cons, ih _ hrest]
    split
    · exact dlookup_dmodify_ne fid i g m hne
    · rfl

theorem markFac_lookup_mem (g : Facility → Facility) (ids : List String)
    (m : List (String × Facility)) (fid : String)
    (hg : ∀ f, g (g f) = g f) (h : fid ∈ ids) :
    dlookup fid (markFac g m ids) = (dlookup fid m).map g := by
  induction ids generalizing m with
  | nil => simp at h
  | cons i rest ih =>
    rw [markFac_cons]
    by_cases hfi : fid = i
    · subst hfi
      cases hm : dlookup fid m with
      | none =>
        simp [hm]
        by_cases hr : fid ∈ rest
        · rw [ih _ hr, hm]; rfl
        · rw [markFac_lookup_not_mem _ _ _ _ hr, hm]
      | some v =>
        simp [hm]
        have hmod : dlookup fid (dmodify fid g m) = some (g v) := by
          rw [dlookup_dmodify_self, hm]; rfl
        by_cases hr : fid ∈ rest
        · rw [ih _ hr, hmod]; simp [hg]
        · rw [markFac_lookup_not_mem _ _ _ _ hr, hmod]
    · have hr : fid ∈ rest := by
        rcases List.mem_cons.mp h with h' | h'
        · exact absurd h' hfi
        · exact h'
      rw [ih _ hr]
      split
      · rw [dlookup_dmodify_ne fid i g m hfi]
      · rfl

/-- The fields a marking pass never writes. -/
def frameOf (f : Facility) : Facility := { f with status := "operational", alert := none }

theorem frameOf_setAlert (a : Alert) (f : Facility) : frameOf (setAlert a f) = frameOf f := rfl

theorem setAlert_idem (a : Alert) (f : Facility) : setAlert a (setAlert a f) = setAlert a f := rfl

theorem setAlert_congr (a : Alert) (f f' : Facility) (h : frameOf f = frameOf f') :
    setAlert a f = setAlert a f' := by
  cases f
  cases f'
  simp only [frameOf, setAlert, Facility.mk.injEq] at h ⊢
  simp_all

theorem markFac_lookup_frame (g : Facility → Facility) (ids : List String)
    (m : List (String × Facility)) (fid : String) (hfr : ∀ f, frameOf (g f) = frameOf f) :
    (dlookup fid (markFac g m ids)).map frameOf = (dlookup fid m).map frameOf := by
  induction ids generalizing m with
  | nil => rfl
  | cons i rest ih =>
    rw [markFac_cons, ih]
    split
    · by_cases hfi : fid = i
      · subst hfi
        rw [dlookup_dmodify_self]
        cases dlookup fid m <;> simp [hfr]
      · rw [dlookup_dmodify_ne fid i g m hfi]
    · rfl

theorem markAlerts_nil (m : List (String × Facility)) : markAlerts m [] = m := rfl

theorem markAlerts_cons (m : List (String × Facility)) (a : Alert) (l : List Alert) :
    markAlerts m (a :: l) = markAlerts (markAlert m a) l := rfl

theorem markAlerts_append (m : List (String × Facility)) (l₁ l₂ : List Alert) :
    markAlerts m (l₁ ++ l₂) = markAlerts (markAlerts m l₁) l₂ := by
  simp [markAlerts, List.foldl_append]

theorem markAlerts_lookup_not_ref (m : List (String × Facility)) (l : List Alert)
    (fid : String) (h : ∀ a ∈ l, fid ∉ extract_facility_ids_from_alert a) :
    dlookup fid (markAlerts m l) = dlookup fid m := by
  induction l generalizing m with
  | nil => rfl
  | cons a rest ih =>
    rw [markAlerts_cons, ih _ (fun b hb => h b (List.mem_cons_of_mem _ hb))]
    exact markFac_lookup_not_mem _ _ _ _ (h a (List.mem_cons_self a rest))

theorem markAlerts_lookup_frame (m : List (String × Facility)) (l : List Alert)
    (fid : String) :
    (dlookup fid (markAlerts m l)).map frameOf = (dlookup fid m).map frameOf := by
  induction l generalizing m with
  | nil => rfl
  | cons a rest ih =>
    rw [markAlerts_cons, ih]
    exact markFac_lookup_frame _ _ _ _ (frameOf_setAlert a)

/-- The central reconciliation fact: if `fid` is in the inventory `m`, alert
`a` references it and no later alert does, the final entry is the original
one overwritten by `a`'s summary. -/
theorem markAlerts_last (m : List (String × Facility)) (l₁ l₂ : List Alert) (a : Alert)
    (fid : String) (f : Facility) (hm : dlookup fid m = some f)
    (ha : fid ∈ extract_facility_ids_from_alert a)
    (hl₂ : ∀ b ∈ l₂, fid ∉ extract_facility_ids_from_alert b) :
    dlookup fid (markAlerts m (l₁ ++ a :: l₂)) = some (setAlert a f) := by
  rw [markAlerts_append, markAlerts_cons, markAlerts_lookup_not_ref _ _ _ hl₂]
  have hfr : (dlookup fid (markAlerts m l₁)).map frameOf = some (frameOf f) := by
    rw [markAlerts_lookup_frame, hm]; rfl
  cases hM : dlookup fid (markAlerts m l₁) with
  | none => rw [hM] at hfr; simp at hfr
  | some f' =>
    rw [hM] at hfr
    simp only [Option.map_some'] at hfr
    have hcg : setAlert a f' = setAlert a f :=
      setAlert_congr a f' f (by injection hfr)
    rw [markAlert, markFac_lookup_mem _ _ _ _ (setAlert_idem a) ha, hM]
    simp [hcg]

/-! ### Properties of the initial inventory -/

theorem dlookup_foldl_dinsert {β : Type} (P : Facility → Prop)
    (keyf : β → String) (valf : β → Facility) (hval : ∀ b, P (valf b))
    (l : List β) (m : List (String × Facility))
    (hm : ∀ fid f, dlookup fid m = some f → P f) :
    ∀ fid f, dlookup fid (l.foldl (fun m b => dinsert (keyf b) (valf b) m) m) = some f → P f := by
  induction l generalizing m with
  | nil => exact hm
  | cons b rest ih =>
    refine ih _ ?_
    intro fid f hf
    by_cases hk : fid = keyf b
    · subst hk
      rw [dlookup_dinsert_self] at hf
      cases hf
      exact hval b
    · rw [dlookup_dinsert_ne _ _ _ _ hk] at hf
      exact hm _ _ hf

theorem mem_foldl_dinsert {β : Type} (P : Facility → Prop)
    (keyf : β → String) (valf : β → Facility) (hval : ∀ b, P (valf b))
    (l : List β) (m : List (String × Facility))
    (hm : ∀ q ∈ m, P q.2) :
    ∀ q ∈ l.foldl (fun m b => dinsert (keyf b) (valf b) m) m, P q.2 := by
  induction l generalizing m with
  | nil => exact hm
  | cons b rest ih =>
    refine ih _ ?_
    intro q hq
    rcases mem_dinsert q _ _ _ hq with h | h
    · exact hm q h
    · rw [h]
      exact hval b

theorem initFacilities_default (fd : FacilitiesResponse) (fid : String) (f : Facility)
    (h : dlookup fid (initFacilities fd) = some f) :
    f.status = "operational" ∧ f.alert = none := by
  refine dlookup_foldl_dinsert (fun f => f.status = "operational" ∧ f.alert = none)
    FacilityItem.id _ (fun item => ⟨rfl, rfl⟩) fd.data [] ?_ fid f h
  intro fid f hf
  simp [dlookup] at hf

theorem initFacilities_mem_default (fd : FacilitiesResponse) :
    ∀ q ∈ initFacilities fd, q.2.status = "operational" ∧ q.2.alert = none := by
  refine mem_foldl_dinsert (fun f => f.status = "operational" ∧ f.alert = none)
    FacilityItem.id _ (fun item => ⟨rfl, rfl⟩) fd.data [] ?_
  intro q hq
  simp at hq

theorem initFacilitiesApp_mem_default (fd : FacilitiesResponse) :
    ∀ q ∈ initFacilitiesApp fd, q.2.status = "operational" ∧ q.2.alert = none := by
  refine mem_foldl_dinsert (fun f => f.status = "operational" ∧ f.alert = none)
    FacilityItem.id _ (fun item => ⟨rfl, rfl⟩) fd.data [] ?_
  intro q hq
  simp at hq

theorem markFac_mem_prop (P : Facility → Prop) (g : Facility → Facility)
    (hg : ∀ f, P (g f)) (ids : List String) (m : List (String × Facility))
    (hm : ∀ q ∈ m, P q.2) : ∀ q ∈ markFac g m ids, P q.2 := by
  induction ids generalizing m with
  | nil => exact hm
  | cons i rest ih =>
    rw [markFac_cons]
    refine ih _ ?_
    intro q hq
    split at hq
    · rcases mem_dmodify q i g m hq with h | ⟨q', _, he⟩
      · exact hm q h
      · rw [he]
        exact hg q'.2
    · exact hm q hq

theorem markAlerts_mem_prop (P : Facility → Prop) (hP : ∀ a f, P (setAlert a f))
    (l : List Alert) (m : List (String × Facility)) (hm : ∀ q ∈ m, P q.2) :
    ∀ q ∈ markAlerts m l, P q.2 := by
  induction l generalizing m with
  | nil => exact hm
  | cons a rest ih =>
    rw [markAlerts_cons]
    exact ih _ (markFac_mem_prop P (setAlert a) (hP a) _ m hm)

/-- `mkAlertSummary` written through `head?`. -/
theorem mkAlertSummary_eq (a : Alert) :
    mkAlertSummary a =
      { id := a.id
        header := a.attributes.header
        description := a.attributes.description
        severity := a.attributes.severity
        cause := a.attributes.cause
        effect := a.attributes.effect
        updated_at := a.attributes.updated_at
        active_period := a.attributes.active_period
        outage_start := a.attributes.active_period.head?.bind ActivePeriod.start } := by
  cases h : a.attributes.active_period <;> simp [mkAlertSummary, h]

/-! ### Shared concrete fixtures for the witnesses -/

/-- An included stop with both coordinates present. -/
def exStop : IncludedStop :=
  { type := "stop", id := "place-alfcl", name := some "Alewife",
    latitude := some (42 : ℚ), longitude := some (-71 : ℚ) }

/-- An included stop lacking a longitude. -/
def exStopNoLon : IncludedStop :=
  { type := "stop", id := "place-nocoord", name := some "Nowhere",
    latitude := some (42 : ℚ), longitude := none }

/-- Facility item 701 (an elevator at Alewife). -/
def exItem701 : FacilityItem :=
  { id := "701"
    attributes :=
      { type := some "ELEVATOR", long_name := some "Alewife Elevator 701",
        short_name := some "Elevator 701" }
    relStopId := some "place-alfcl" }

/-- Facility item 702 (an escalator at Alewife). -/
def exItem702 : FacilityItem :=
  { id := "702"
    attributes :=
      { type := some "ESCALATOR", long_name := some "Alewife Escalator 702",
        short_name := some "Escalator 702" }
    relStopId := some "place-alfcl" }

/-- A facilities response with two facilities and two included stops. -/
def exFd : FacilitiesResponse := { data := [exItem701, exItem702], included := [exStop, exStopNoLon] }

/-- The reconciled inventory record for facility 701 before any alert. -/
def exFac701 : Facility :=
  { id := "701", type := some "ELEVATOR", name := some "Alewife Elevator 701",
    short_name := some "Elevator 701", stop_id := some "place-alfcl",
    station_name := "Alewife", status := "operational", alert := none }

/-- The reconciled inventory record for facility 702 before any alert. -/
def exFac702 : Facility :=
  { id := "702", type := some "ESCALATOR", name := some "Alewife Escalator 702",
    short_name := some "Escalator 702", stop_id := some "place-alfcl",
    station_name := "Alewife", status := "operational", alert := none }

/-- A first alert referencing facility 701. -/
def exAlert1 : Alert :=
  { id := "A1"
    attributes :=
      { informed_entity := [{ facility := some "701", stop := none }]
        active_period := [{ start := some "2024-01-01T00:00:00", stop := none }]
        header := some "Elevator 701 unavailable"
        description := some "Use the ramp"
        severity := some 7
        cause := some "MAINTENANCE"
        effect := some "ELEVATOR_CLOSURE"
        updated_at := some "2024-01-02T00:00:00" } }

/-- A second, later alert referencing facility 701. -/
def exAlert2 : Alert :=
  { id := "A2"
    attributes :=
      { informed_entity := [{ facility := some "701", stop := none }]
        active_period := []
        header := some "Elevator 701 closed for construction"
        description := none
        severity := some 9
        cause := some "CONSTRUCTION"
        effect := some "ELEVATOR_CLOSURE"
        updated_at := some "2024-01-03T00:00:00" } }

/-- An alerts response with a single alert (referencing 701 only). -/
def exAd1 : AlertsResponse := { data := [exAlert1] }

/-- An alerts response with two alerts, both referencing facility 701. -/
def exAd2 : AlertsResponse := { data := [exAlert1, exAlert2] }

/-! ### C1 -/

/-- C1: if two alerts in the accessibility-alerts response both reference the
same facility (present in the fetched inventory), the reconciled record holds
the Alert Summary built from the alert processed last in input order
(last-write-wins) and its status is `out_of_service`. -/
theorem c1_last_write_wins (fd : FacilitiesResponse) (ad : AlertsResponse)
    (l₁ l₂ l₃ : List Alert) (a₁ a₂ : Alert) (fid : String) (f : Facility)
    (hdata : ad.data = l₁ ++ a₁ :: l₂ ++ a₂ :: l₃)
    (h₁ : fid ∈ extract_facility_ids_from_alert a₁)
    (h₂ : fid ∈ extract_facility_ids_from_alert a₂)
    (h₃ : ∀ b ∈ l₃, fid ∉ extract_facility_ids_from_alert b)
    (hinv : dlookup fid (initFacilities fd) = some f) :
    dlookup fid (build_accessibility_status fd ad) =
      some { f with status := "out_of_service", alert := some (mkAlertSummary a₂) } := by
  have hsplit : ad.data = (l₁ ++ a₁ :: l₂) ++ a₂ :: l₃ := by simp [hdata]
  rw [build_accessibility_status, hsplit]
  exact markAlerts_last _ _ _ _ _ _ hinv h₂ h₃

/-- Witness for C1: two concrete alerts against facility 701; the second one
wins and the record is out of service. -/
theorem c1_last_write_wins_witness :
    dlookup "701" (build_accessibility_status exFd exAd2) =
      some { exFac701 with status := "out_of_service", alert := some (mkAlertSummary exAlert2) } :=
  c1_last_write_wins exFd exAd2 [] [] [] exAlert1 exAlert2 "701" exFac701 rfl
    (by decide) (by decide) (by simp) (by decide)

/-! ### C2 -/

/-- C2: a facility of the fetched inventory referenced by no alert keeps
status `operational` and a null alert; one referenced by exactly one alert
becomes `out_of_service` with an attached summary whose every field equals
that alert's attributes, the outage start being the first active period's
start (null when there is no active period). -/
theorem c2_unreferenced_and_single_alert (fd : FacilitiesResponse) (ad : AlertsResponse) :
    (∀ fid f, dlookup fid (initFacilities fd) = some f →
      (∀ a ∈ ad.data, fid ∉ extract_facility_ids_from_alert a) →
      dlookup fid (build_accessibility_status fd ad) = some f ∧
        f.status = "operational" ∧ f.alert = none) ∧
    (∀ fid f l₁ a l₂, dlookup fid (initFacilities fd) = some f →
      ad.data = l₁ ++ a :: l₂ →
      fid ∈ extract_facility_ids_from_alert a →
      (∀ b ∈ l₁, fid ∉ extract_facility_ids_from_alert b) →
      (∀ b ∈ l₂, fid ∉ extract_facility_ids_from_alert b) →
      dlookup fid (build_accessibility_status fd ad) =
        some { f with
                status := "out_of_service"
                alert := some
                  { id := a.id
                    header := a.attributes.header
                    description := a.attributes.description
                    severity := a.attributes.severity
                    cause := a.attributes.cause
                    effect := a.attributes.effect
                    updated_at := a.attributes.updated_at
                    active_period := a.attributes.active_period
                    outage_start := a.attributes.active_period.head?.bind ActivePeriod.start } }) := by
  constructor
  · intro fid f hinv hnoref
    refine ⟨?_, initFacilities_default fd fid f hinv⟩
    rw [build_accessibility_status, markAlerts_lookup_not_ref _ _ _ hnoref]
    exact hinv
  · intro fid f l₁ a l₂ hinv hdata ha hl₁ hl₂
    rw [build_accessibility_status, hdata, markAlerts_last _ _ _ _ _ _ hinv ha hl₂]
    rw [setAlert, mkAlertSummary_eq]

/-- Witness for C2: facility 702 is untouched by the single alert and stays
operational with no attached summary; facility 701 is referenced exactly once
and carries that alert's fields. -/
theorem c2_unreferenced_and_single_alert_witness :
    (dlookup "702" (build_accessibility_status exFd exAd1) = some exFac702 ∧
      exFac702.status = "operational" ∧ exFac702.alert = none) ∧
    dlookup "701" (build_accessibility_status exFd exAd1) =
      some { exFac701 with
              status := "out_of_service"
              alert := some
                { id := exAlert1.id
                  header := exAlert1.attributes.header
                  description := exAlert1.attributes.description
                  severity := exAlert1.attributes.severity
                  cause := exAlert1.attributes.cause
                  effect := exAlert1.attributes.effect
                  updated_at := exAlert1.attributes.updated_at
                  active_period := exAlert1.attributes.active_period
                  outage_start :=
                    exAlert1.attributes.active_period.head?.bind ActivePeriod.start } } :=
  ⟨(c2_unreferenced_and_single_alert exFd exAd1).1 "702" exFac702 (by decide) (by decide),
    (c2_unreferenced_and_single_alert exFd exAd1).2 "701" exFac701 [] exAlert1 []
      (by decide) rfl (by decide) (by simp) (by simp)⟩

/-! ### C10 -/

/-- C10: after a reconciliation pass (either `build_accessibility_status` or
the facilities mapping of `get_data_for_app`), every record's status is
`out_of_service` exactly when an Alert Summary is attached, and the status is
always one of `operational` / `out_of_service`. -/
theorem c10_status_alert_invariant (fd : FacilitiesResponse) (ad : AlertsResponse) :
    (∀ q ∈ build_accessibility_status fd ad,
      (q.2.status = "out_of_service" ↔ q.2.alert ≠ none) ∧
      (q.2.status = "operational" ∨ q.2.status = "out_of_service")) ∧
    (∀ q ∈ (get_data_for_app fd ad).facilities,
      (q.2.status = "out_of_service" ↔ q.2.alert ≠ none) ∧
      (q.2.status = "operational" ∨ q.2.status = "out_of_service")) := by
  have hset : ∀ (a : Alert) (f : Facility),
      (((setAlert a f).status = "out_of_service" ↔ (setAlert a f).alert ≠ none) ∧
        ((setAlert a f).status = "operational" ∨ (setAlert a f).status = "out_of_service")) := by
    intro a f
    simp [setAlert]
  constructor
  · refine markAlerts_mem_prop
      (fun f => (f.status = "out_of_service" ↔ f.alert ≠ none) ∧
        (f.status = "operational" ∨ f.status = "out_of_service"))
      hset ad.data (initFacilities fd) ?_
    intro q hq
    obtain ⟨h1, h2⟩ := initFacilities_mem_default fd q hq
    rw [h1, h2]
    simp
  · show ∀ q ∈ markAlerts (initFacilitiesApp fd) ad.data, _
    refine markAlerts_mem_prop
      (fun f => (f.status = "out_of_service" ↔ f.alert ≠ none) ∧
        (f.status = "operational" ∨ f.status = "out_of_service"))
      hset ad.data (initFacilitiesApp fd) ?_
    intro q hq
    obtain ⟨h1, h2⟩ := initFacilitiesApp_mem_default fd q hq
    rw [h1, h2]
    simp

/-- Witness for C10: the invariant instantiated at the concrete reconciled
entry for facility 701 (out of service) of the example data. -/
theorem c10_status_alert_invariant_witness :
    ((setAlert exAlert1 exFac701).status = "out_of_service" ↔
      (setAlert exAlert1 exFac701).alert ≠ none) ∧
    ((setAlert exAlert1 exFac701).status = "operational" ∨
      (setAlert exAlert1 exFac701).status = "out_of_service") :=
  (c10_status_alert_invariant exFd exAd1).1 ("701", setAlert exAlert1 exFac701) (by decide)

/-! ### C5: station aggregation -/

/-- Total of a possibly-missing counter entry. -/
def ctot (o : Option Counts) : Nat :=
  (o.getD ⟨0, 0⟩).operational + (o.getD ⟨0, 0⟩).out_of_service

theorem ctot_stationCountStep (m : List (Option String × Counts)) (f : Facility)
    (k : Option String) :
    ctot (dlookup k (stationCountStep m f)) =
      ctot (dlookup k m) + (if f.stop_id = k then 1 else 0) := by
  have step_eq : stationCountStep m f =
      dmodify f.stop_id
        (fun c =>
          if f.status = "operational" then { c with operational := c.operational + 1 }
          else { c with out_of_service := c.out_of_service + 1 })
        (if (dlookup f.stop_id m).isSome then m else dinsert f.stop_id ⟨0, 0⟩ m) := rfl
  by_cases hk : f.stop_id = k
  · subst hk
    rw [step_eq, dlookup_dmodify_self]
    cases h : dlookup f.stop_id m with
    | none =>
      rw [if_neg (by simp), dlookup_dinsert_self]
      split <;> simp [ctot]
    | some c =>
      rw [if_pos (by simp), h]
      split <;> simp [ctot] <;> omega
  · have hbase :
        dlookup k (if (dlookup f.stop_id m).isSome then m else dinsert f.stop_id ⟨0, 0⟩ m) =
          dlookup k m := by
      split
      · rfl
      · exact dlookup_dinsert_ne k f.stop_id ⟨0, 0⟩ m (fun h => hk h.symm)
    rw [step_eq, dlookup_dmodify_ne k f.stop_id _ _ (fun h => hk h.symm), hbase]
    simp [hk]

theorem ctot_foldl_stationCountStep (fs : List Facility)
    (m : List (Option String × Counts)) (k : Option String) :
    ctot (dlookup k (fs.foldl stationCountStep m)) =
      ctot (dlookup k m) + fs.countP (fun f => decide (f.stop_id = k)) := by
  induction fs generalizing m with
  | nil => simp
  | cons f rest ih =>
    rw [List.foldl_cons, ih, ctot_stationCountStep, List.countP_cons]
    by_cases h : f.stop_id = k
    · rw [if_pos h, if_pos (decide_eq_true h)]
      omega
    · rw [if_neg h, if_neg (by simp [h])]
      omega

theorem stationCounts_total (fs : List Facility) (k : Option String) :
    ctot (dlookup k (stationCounts fs)) = fs.countP (fun f => decide (f.stop_id = k)) := by
  rw [stationCounts, ctot_foldl_stationCountStep]
  simp [ctot, dlookup]

theorem keys_dinsert {κ α : Type} [DecidableEq κ] (k : κ) (v : α) (m : List (κ × α)) :
    (dinsert k v m).map Prod.fst =
      if k ∈ m.map Prod.fst then m.map Prod.fst else m.map Prod.fst ++ [k] := by
  induction m with
  | nil => simp [dinsert]
  | cons p rest ih =>
    obtain ⟨k', v'⟩ := p
    by_cases hk : k' = k
    · subst hk
      simp [dinsert]
    · simp only [dinsert, if_neg hk, List.map_cons, ih]
      by_cases hmem : k ∈ rest.map Prod.fst
      · simp [hmem, List.mem_cons]
      · simp [hmem, List.mem_cons, Ne.symm hk]

theorem nodupKeys_dinsert {κ α : Type} [DecidableEq κ] (k : κ) (v : α) (m : List (κ × α))
    (h : (m.map Prod.fst).Nodup) : ((dinsert k v m).map Prod.fst).Nodup := by
  rw [keys_dinsert]
  by_cases hmem : k ∈ m.map Prod.fst
  · rw [if_pos hmem]
    exact h
  · rw [if_neg hmem]
    simp [List.nodup_append, h, hmem]

theorem stopsLookupInfo_nodupKeys (fd : FacilitiesResponse) :
    ((stopsLookupInfo fd).map Prod.fst).Nodup := by
  rw [stopsLookupInfo]
  have H : ∀ (l : List IncludedStop) (m : List (String × StopInfo)),
      (m.map Prod.fst).Nodup → ((l.foldl stopsInfoStep m).map Prod.fst).Nodup := by
    intro l
    induction l with
    | nil => intro m hm; exact hm
    | cons inc rest ih =>
      intro m hm
      rw [List.foldl_cons]
      refine ih _ ?_
      rw [stopsInfoStep]
      split
      · exact nodupKeys_dinsert _ _ _ hm
      · exact hm
  exact H fd.included [] (by simp)

theorem nodupKeys_value_unique {κ α : Type} [DecidableEq κ] (m : List (κ × α))
    (h : (m.map Prod.fst).Nodup) (k : κ) (v v' : α)
    (h1 : (k, v) ∈ m) (h2 : (k, v') ∈ m) : v = v' := by
  induction m with
  | nil => simp at h1
  | cons p rest ih =>
    obtain ⟨k₀, v₀⟩ := p
    rw [List.map_cons, List.nodup_cons] at h
    rcases List.mem_cons.mp h1 with e1 | e1 <;> rcases List.mem_cons.mp h2 with e2 | e2
    · injection e1 with hk1 hv1
      injection e2 with hk2 hv2
      rw [hv1, hv2]
    · injection e1 with hk1 hv1
      subst hk1
      exact absurd (List.mem_map_of_mem Prod.fst e2) h.1
    · injection e2 with hk2 hv2
      subst hk2
      exact absurd (List.mem_map_of_mem Prod.fst e1) h.1
    · exact ih h.2 e1 e2

theorem mem_stationsList (fd : FacilitiesResponse) (facs : List (String × Facility))
    (st : Station) (h : st ∈ stationsList fd facs) :
    ∃ info, (st.id, info) ∈ stopsLookupInfo fd ∧
      info.latitude = some st.lat ∧ info.longitude = some st.lon ∧
      st.n_operational =
        ((dlookup (some st.id) (stationCounts (facs.map Prod.snd))).getD ⟨0, 0⟩).operational ∧
      st.n_out_of_service =
        ((dlookup (some st.id) (stationCounts (facs.map Prod.snd))).getD ⟨0, 0⟩).out_of_service := by
  obtain ⟨entry, hentry, hmk⟩ := List.mem_filterMap.mp h
  obtain ⟨sid, info⟩ := entry
  cases hlat : info.latitude with
  | none => simp [hlat] at hmk
  | some lat =>
    cases hlon : info.longitude with
    | none => simp [hlat, hlon] at hmk
    | some lon =>
      simp only [hlat, hlon] at hmk
      have hst2 := Option.some.inj hmk
      subst hst2
      exact ⟨info, hentry, by simp [hlat], by simp [hlon], rfl, rfl⟩

/-- C5: the station list produced by `get_data_for_app` excludes every stop
whose latitude or longitude is null, and for every included station
`n_operational + n_out_of_service` equals the number of reconciled
facilities whose `stop_id` equals that station's identifier. -/
theorem c5_station_aggregation (fd : FacilitiesResponse) (ad : AlertsResponse) :
    (∀ sid info, (sid, info) ∈ stopsLookupInfo fd →
      info.latitude = none ∨ info.longitude = none →
      ∀ st ∈ (get_data_for_app fd ad).stations, st.id ≠ sid) ∧
    (∀ st ∈ (get_data_for_app fd ad).stations,
      st.n_operational + st.n_out_of_service =
        ((get_data_for_app fd ad).facilities.map Prod.snd).countP
          (fun f => decide (f.stop_id = some st.id))) := by
  constructor
  · intro sid info hmem hnull st hst
    obtain ⟨info', hmem', hlat, hlon, _, _⟩ :=
      mem_stationsList fd (markAlerts (initFacilitiesApp fd) ad.data) st hst
    intro heq
    rw [heq] at hmem'
    have hinfo : info' = info :=
      nodupKeys_value_unique _ (stopsLookupInfo_nodupKeys fd) sid info' info hmem' hmem
    rcases hnull with hn | hn
    · rw [hinfo, hn] at hlat
      simp at hlat
    · rw [hinfo, hn] at hlon
      simp at hlon
  · intro st hst
    obtain ⟨info, hmem, hlat, hlon, hop, hoos⟩ :=
      mem_stationsList fd (markAlerts (initFacilitiesApp fd) ad.data) st hst
    rw [hop, hoos]
    have htot :=
      stationCounts_total ((markAlerts (initFacilitiesApp fd) ad.data).map Prod.snd)
        (some st.id)
    simp only [ctot] at htot
    exact htot

/-- The station record for Alewife in the example data: one operational and
one out-of-service facility. -/
def exStation : Station :=
  { id := "place-alfcl", name := "Alewife", lat := 42, lon := -71,
    n_operational := 1, n_out_of_service := 1 }

/-- Witness for C5: on the example data the coordinate-less stop
`place-nocoord` yields no station, and Alewife's two counters sum to its two
facilities. -/
theorem c5_station_aggregation_witness :
    exStation.id ≠ "place-nocoord" ∧
    exStation.n_operational + exStation.n_out_of_service =
      ((get_data_for_app exFd exAd1).facilities.map Prod.snd).countP
        (fun f => decide (f.stop_id = some exStation.id)) :=
  ⟨(c5_station_aggregation exFd exAd1).1 "place-nocoord"
      { name := "Nowhere", latitude := some (42 : ℚ), longitude := none }
      (by decide) (Or.inr rfl) exStation (by decide),
    (c5_station_aggregation exFd exAd1).2 exStation (by decide)⟩

/-! ### C4: service-alert filtering -/

/-- The retention condition of `fetch_route_alerts`, as a proposition. -/
def keepProp (stop_id : String) (a : Alert) : Prop :=
  (a.attributes.effect.getD "") ∈ keep_effects ∧
    ((a.attributes.effect.getD "") = "STATION_ISSUE" →
      stop_id ∈ a.attributes.informed_entity.filterMap InformedEntity.stop)

instance (stop_id : String) (a : Alert) : Decidable (keepProp stop_id a) := by
  rw [keepProp]
  infer_instance

/-- The per-alert projection performed by `fetch_route_alerts`. -/
def reduceAlert (a : Alert) : ServiceAlert :=
  { header := a.attributes.header.getD ""
    effect := a.attributes.effect.getD ""
    description := pyStrip (a.attributes.description.getD "")
    active_period := a.attributes.active_period }

theorem routeAlertStep_cases (stop_id : String) (acc : List ServiceAlert) (a : Alert) :
    routeAlertStep stop_id acc a =
      if keepProp stop_id a then acc ++ [reduceAlert a] else acc := by
  rw [routeAlertStep]
  by_cases h1 : (a.attributes.effect.getD "") ∈ keep_effects
  · rw [if_neg (by simpa using h1)]
    by_cases h2 : (a.attributes.effect.getD "") = "STATION_ISSUE" ∧
        stop_id ∉ a.attributes.informed_entity.filterMap InformedEntity.stop
    · rw [if_pos h2, if_neg (fun hk => h2.2 (hk.2 h2.1))]
    · have hk : keepProp stop_id a := by
        refine ⟨h1, fun hsi => ?_⟩
        by_contra hstop
        exact h2 ⟨hsi, hstop⟩
      rw [if_neg h2, if_pos hk]
      rfl
  · rw [if_pos (by simpa using h1), if_neg (fun hk => h1 hk.1)]

theorem foldl_routeAlertStep (stop_id : String) (l : List Alert) (acc : List ServiceAlert) :
    l.foldl (routeAlertStep stop_id) acc =
      acc ++ (l.filter (fun a => decide (keepProp stop_id a))).map reduceAlert := by
  induction l generalizing acc with
  | nil => simp
  | cons a rest ih =>
    rw [List.foldl_cons, ih, routeAlertStep_cases]
    by_cases h : keepProp stop_id a
    · rw [if_pos h, List.filter_cons_of_pos (by simpa using h), List.map_cons]
      simp
    · rw [if_neg h, List.filter_cons_of_neg (by simpa using h)]

/-- C4 (amended): for a non-empty route set, `fetch_route_alerts` returns
exactly the alerts whose effect lies in the fixed high-impact set, with
`STATION_ISSUE` alerts additionally required to name the queried stop in
their informed-entity list; each retained alert is reduced to its header,
effect, trimmed description, and active-period list. -/
theorem c4_route_alert_filter (stop_id : String) (route_ids : List String)
    (ad : AlertsResponse) (hr : route_ids ≠ []) :
    fetch_route_alerts stop_id route_ids ad =
      (ad.data.filter (fun a =>
        decide ((a.attributes.effect.getD "") ∈
            ["SHUTTLE", "SUSPENSION", "DETOUR", "SERVICE_CHANGE", "STOP_CLOSURE",
              "STOP_MOVE", "STATION_ISSUE"] ∧
          ((a.attributes.effect.getD "") = "STATION_ISSUE" →
            stop_id ∈ a.attributes.informed_entity.filterMap InformedEntity.stop)))).map
        (fun a =>
          { header := a.attributes.header.getD ""
            effect := a.attributes.effect.getD ""
            description := pyStrip (a.attributes.description.getD "")
            active_period := a.attributes.active_period }) := by
  rw [fetch_route_alerts, if_neg hr, foldl_routeAlertStep]
  rfl

/-- A SHUTTLE alert with a non-empty active-period list. -/
def c4AlertA : Alert :=
  { id := "R1"
    attributes :=
      { informed_entity := []
        active_period := [{ start := some "2024-01-01T00:00:00", stop := none }]
        header := some "Shuttle buses replacing service"
        description := some " Red Line shuttle "
        severity := some 7
        cause := none
        effect := some "SHUTTLE"
        updated_at := none } }

/-- The same alert with an empty active-period list (header, effect and
description are identical). -/
def c4AlertB : Alert :=
  { id := "R1"
    attributes :=
      { informed_entity := []
        active_period := []
        header := some "Shuttle buses replacing service"
        description := some " Red Line shuttle "
        severity := some 7
        cause := none
        effect := some "SHUTTLE"
        updated_at := none } }

/-- Counterexample for C4 as stated: a retained alert is not reduced to only
its header, effect and trimmed description — the output also carries the
alert's active-period list, so two fetched alerts agreeing on those three
attributes but differing in active periods produce different results. -/
theorem c4_counterexample :
    (fetch_route_alerts "place-dwnxg" ["Red"] { data := [c4AlertA] }).map
        ServiceAlert.active_period =
      [[{ start := some "2024-01-01T00:00:00", stop := none }]] ∧
    c4AlertA.attributes.header = c4AlertB.attributes.header ∧
    c4AlertA.attributes.effect = c4AlertB.attributes.effect ∧
    c4AlertA.attributes.description = c4AlertB.attributes.description ∧
    fetch_route_alerts "place-dwnxg" ["Red"] { data := [c4AlertA] } ≠
      fetch_route_alerts "place-dwnxg" ["Red"] { data := [c4AlertB] } := by
  decide

/-- A STATION_ISSUE alert naming the queried stop. -/
def c4AlertC : Alert :=
  { id := "R2"
    attributes :=
      { informed_entity := [{ facility := none, stop := some "place-dwnxg" }]
        active_period := []
        header := some "Downtown Crossing issue"
        description := none
        severity := some 3
        cause := none
        effect := some "STATION_ISSUE"
        updated_at := none } }

/-- A STATION_ISSUE alert scoped to a different stop. -/
def c4AlertD : Alert :=
  { id := "R3"
    attributes :=
      { informed_entity := [{ facility := none, stop := some "place-pktrm" }]
        active_period := []
        header := some "Park Street issue"
        description := none
        severity := some 3
        cause := none
        effect := some "STATION_ISSUE"
        updated_at := none } }

/-- A low-impact DELAY alert (not in the fixed effect set). -/
def c4AlertE : Alert :=
  { id := "R4"
    attributes :=
      { informed_entity := []
        active_period := []
        header := some "Minor delays"
        description := none
        severity := some 1
        cause := none
        effect := some "DELAY"
        updated_at := none } }

/-- Witness for the amended C4: the SHUTTLE alert and the matching
STATION_ISSUE alert survive; the foreign STATION_ISSUE and the DELAY alert
are dropped. -/
theorem c4_route_alert_filter_witness :
    fetch_route_alerts "place-dwnxg" ["Red"]
        { data := [c4AlertA, c4AlertC, c4AlertD, c4AlertE] } =
      [{ header := "Shuttle buses replacing service", effect := "SHUTTLE",
         description := "Red Line shuttle",
         active_period := [{ start := some "2024-01-01T00:00:00", stop := none }] },
       { header := "Downtown Crossing issue", effect := "STATION_ISSUE",
         description := "", active_period := [] }] :=
  (c4_route_alert_filter "place-dwnxg" ["Red"]
      { data := [c4AlertA, c4AlertC, c4AlertD, c4AlertE] } (by decide)).trans (by decide)

/-! ### C6: duration formatting -/

theorem pyInt_intCast_div_natCast (n : Int) (k : Nat) (hn : 0 ≤ n) :
    pyInt ((n : ℚ) / (k : ℚ)) = n / (k : Int) := by
  rw [pyInt, if_neg (not_lt.mpr (div_nonneg (by exact_mod_cast hn) (by positivity)))]
  exact Rat.floor_intCast_div_natCast n k

/-- C6: against a fixed current moment `now`, a parsed timestamp `start`
renders as "starting soon" when in the future, whole minutes under one hour,
whole hours under one day, whole days under 30 days, whole months (30.44-day
months — exactly 65 750 400 / 25 seconds) under 12 such months, and otherwise
fractional years (365.25-day years) to one decimal; a missing, empty or
unparseable input yields `none` rather than an error. -/
theorem c6_format_duration (ts : String) (start now : Int)
    (hp : fromisoformat (pySlice ts 19) = some start) :
    (now - start < 0 → _format_duration (some ts) now = some "starting soon") ∧
    (0 ≤ now - start → now - start < 3600 →
      _format_duration (some ts) now =
        some (toString ((now - start) / 60) ++ " minute" ++
          (if (now - start) / 60 ≠ 1 then "s" else ""))) ∧
    (3600 ≤ now - start → now - start < 86400 →
      _format_duration (some ts) now =
        some (toString ((now - start) / 3600) ++ " hour" ++
          (if (now - start) / 3600 ≠ 1 then "s" else ""))) ∧
    (86400 ≤ now - start → now - start < 2592000 →
      _format_duration (some ts) now =
        some (toString ((now - start) / 86400) ++ " day" ++
          (if (now - start) / 86400 ≠ 1 then "s" else ""))) ∧
    (2592000 ≤ now - start → now - start < 31560192 →
      _format_duration (some ts) now =
        some (toString ((25 * (now - start)) / 65750400) ++ " month" ++
          (if (25 * (now - start)) / 65750400 ≠ 1 then "s" else ""))) ∧
    (31560192 ≤ now - start →
      _format_duration (some ts) now =
        some (format1f (((now - start : Int) : ℚ) / 31557600) ++ " years")) ∧
    (∀ t : Int, _format_duration none t = none) ∧
    (∀ t : Int, _format_duration (some "") t = none) ∧
    (∀ t : Int, _format_duration (some "not a timestamp") t = none) := by
  have hne : ts ≠ "" := by
    intro h
    rw [h] at hp
    have h0 : fromisoformat (pySlice "" 19) = none := by decide
    rw [h0] at hp
    exact Option.noConfusion hp
  have hcast : ((now : ℚ) - (start : ℚ)) = ((now - start : Int) : ℚ) := by push_cast; ring
  have e1 : ((now - start : Int) : ℚ) / 60 / 60 = ((now - start : Int) : ℚ) / 3600 := by
    ring
  have e2 : ((now - start : Int) : ℚ) / 3600 / 24 = ((now - start : Int) : ℚ) / 86400 := by
    ring
  have e3 : ((now - start : Int) : ℚ) / 86400 / ((761 : ℚ) / 25) =
      ((25 * (now - start) : Int) : ℚ) / 65750400 := by
    push_cast
    ring
  have e4 : ((now - start : Int) : ℚ) / 86400 / ((1461 : ℚ) / 4) =
      ((now - start : Int) : ℚ) / 31557600 := by
    ring
  refine ⟨?_, ?_, ?_, ?_, ?_, ?_, fun t => rfl, fun t => rfl, fun t => rfl⟩
  · intro h
    simp only [_format_duration, if_neg hne, hp, hcast]
    rw [if_pos (div_neg_of_neg_of_pos (by exact_mod_cast h) (by norm_num))]
  · intro h0 h1
    simp only [_format_duration, if_neg hne, hp, hcast]
    have hq0 : (0 : ℚ) ≤ ((now - start : Int) : ℚ) := by exact_mod_cast h0
    have hq1 : ((now - start : Int) : ℚ) < 3600 := by exact_mod_cast h1
    rw [if_neg (not_lt.mpr (div_nonneg hq0 (by norm_num)))]
    rw [if_pos (by rw [div_lt_iff₀ (by norm_num : (0:ℚ) < 60)]; linarith)]
    have hpy : pyInt (((now - start : Int) : ℚ) / 60) = (now - start) / 60 := by
      have h' := pyInt_intCast_div_natCast (now - start) 60 h0
      rwa [show ((60:ℕ):ℚ) = (60:ℚ) by norm_num, show ((60:ℕ):ℤ) = (60:ℤ) by norm_num] at h'
    rw [hpy]
  · intro h0 h1
    simp only [_format_duration, if_neg hne, hp, hcast]
    have hq0 : (3600 : ℚ) ≤ ((now - start : Int) : ℚ) := by exact_mod_cast h0
    have hq1 : ((now - start : Int) : ℚ) < 86400 := by exact_mod_cast h1
    rw [if_neg (not_lt.mpr (div_nonneg (by linarith) (by norm_num)))]
    rw [if_neg (not_lt.mpr (by rw [le_div_iff₀ (by norm_num : (0:ℚ) < 60)]; linarith))]
    rw [e1]
    rw [if_pos (by rw [div_lt_iff₀ (by norm_num : (0:ℚ) < 3600)]; linarith)]
    have hpy : pyInt (((now - start : Int) : ℚ) / 3600) = (now - start) / 3600 := by
      have h' := pyInt_intCast_div_natCast (now - start) 3600 (by linarith)
      rwa [show ((3600:ℕ):ℚ) = (3600:ℚ) by norm_num,
        show ((3600:ℕ):ℤ) = (3600:ℤ) by norm_num] at h'
    rw [hpy]
  · intro h0 h1
    simp only [_format_duration, if_neg hne, hp, hcast]
    have hq0 : (86400 : ℚ) ≤ ((now - start : Int) : ℚ) := by exact_mod_cast h0
    have hq1 : ((now - start : Int) : ℚ) < 2592000 := by exact_mod_cast h1
    rw [if_neg (not_lt.mpr (div_nonneg (by linarith) (by norm_num)))]
    rw [if_neg (not_lt.mpr (by rw [le_div_iff₀ (by norm_num : (0:ℚ) < 60)]; linarith))]
    rw [e1]
    rw [if_neg (not_lt.mpr (by rw [le_div_iff₀ (by norm_num : (0:ℚ) < 3600)]; linarith))]
    rw [e2]
    rw [if_pos (by rw [div_lt_iff₀ (by norm_num : (0:ℚ) < 86400)]; linarith)]
    have hpy : pyInt (((now - start : Int) : ℚ) / 86400) = (now - start) / 86400 := by
      have h' := pyInt_intCast_div_natCast (now - start) 86400 (by linarith)
      rwa [show ((86400:ℕ):ℚ) = (86400:ℚ) by norm_num,
        show ((86400:ℕ):ℤ) = (86400:ℤ) by norm_num] at h'
    rw [hpy]
  · intro h0 h1
    simp only [_format_duration, if_neg hne, hp, hcast]
    have hq0 : (2592000 : ℚ) ≤ ((now - start : Int) : ℚ) := by exact_mod_cast h0
    have hq25 : ((25 * (now - start) : Int) : ℚ) < 789004800 := by
      exact_mod_cast (by linarith : 25 * (now - start) < 789004800)
    rw [if_neg (not_lt.mpr (div_nonneg (by linarith) (by norm_num)))]
    rw [if_neg (not_lt.mpr (by rw [le_div_iff₀ (by norm_num : (0:ℚ) < 60)]; linarith))]
    rw [e1]
    rw [if_neg (not_lt.mpr (by rw [le_div_iff₀ (by norm_num : (0:ℚ) < 3600)]; linarith))]
    rw [e2]
    rw [if_neg (not_lt.mpr (by rw [le_div_iff₀ (by norm_num : (0:ℚ) < 86400)]; linarith))]
    rw [e3]
    rw [if_pos (by rw [div_lt_iff₀ (by norm_num : (0:ℚ) < 65750400)]; norm_num; linarith)]
    have hpy : pyInt (((25 * (now - start) : Int) : ℚ) / 65750400) =
        (25 * (now - start)) / 65750400 := by
      have h' := pyInt_intCast_div_natCast (25 * (now - start)) 65750400 (by linarith)
      rwa [show ((65750400:ℕ):ℚ) = (65750400:ℚ) by norm_num,
        show ((65750400:ℕ):ℤ) = (65750400:ℤ) by norm_num] at h'
    rw [hpy]
  · intro h0
    simp only [_format_duration, if_neg hne, hp, hcast]
    have hq0 : (31560192 : ℚ) ≤ ((now - start : Int) : ℚ) := by exact_mod_cast h0
    have hq25 : (789004800 : ℚ) ≤ ((25 * (now - start) : Int) : ℚ) := by
      exact_mod_cast (by linarith : (789004800 : Int) ≤ 25 * (now - start))
    rw [if_neg (not_lt.mpr (div_nonneg (by linarith) (by norm_num)))]
    rw [if_neg (not_lt.mpr (by rw [le_div_iff₀ (by norm_num : (0:ℚ) < 60)]; linarith))]
    rw [e1]
    rw [if_neg (not_lt.mpr (by rw [le_div_iff₀ (by norm_num : (0:ℚ) < 3600)]; linarith))]
    rw [e2]
    rw [if_neg (not_lt.mpr (by rw [le_div_iff₀ (by norm_num : (0:ℚ) < 86400)]; linarith))]
    rw [e3]
    rw [if_neg
      (not_lt.mpr (by rw [le_div_iff₀ (by norm_num : (0:ℚ) < 65750400)]; norm_num; linarith))]
    rw [e4]

/-- Witness for C6: "2024-01-01T00:00:00" evaluated 3 days later renders as
"3 days"; evaluated before the timestamp it renders "starting soon"; a
missing and an unparseable input yield no value. -/
theorem c6_format_duration_witness :
    _format_duration (some "2024-01-01T00:00:00") 1704326400 = some "3 days" ∧
    _format_duration (some "2024-01-01T00:00:00") 1704000000 = some "starting soon" ∧
    _format_duration none 0 = none ∧
    _format_duration (some "not a timestamp") 0 = none := by
  have h := c6_format_duration "2024-01-01T00:00:00" 1704067200 1704326400 (by decide)
  have h2 := c6_format_duration "2024-01-01T00:00:00" 1704067200 1704000000 (by decide)
  exact ⟨(h.2.2.2.1 (by decide) (by decide)).trans (by decide), h2.1 (by decide),
    h.2.2.2.2.2.2.1 0, h.2.2.2.2.2.2.2.2 0⟩

/-! ### C7: the fail-soft report contract -/

theorem sentinel_of_post_error (post : String → Except String String) (p : String)
    (h : ∃ e, post p = Except.error e) :
    ∃ rest,
      (match _query_ollama post p with
       | Except.error e => "__error__: " ++ e
       | Except.ok response => response) = "__error__: " ++ rest := by
  obtain ⟨e, he⟩ := h
  rw [_query_ollama, he]
  exact ⟨e, rfl⟩

/-- C7: `generate_station_report` never raises — when the route-alerts fetch
fails, or when every generation call fails (e.g. a backend timeout), the
result is a string carrying the `__error__: ` sentinel instead of a
propagated exception. -/
theorem c7_report_error_sentinel (station_id : String) (facilities : List (String × Facility))
    (stations : List Station) (now : Int)
    (routeAlertsResult : Except String (List ServiceAlert))
    (post : String → Except String String) :
    (∀ e, routeAlertsResult = Except.error e →
      ∃ rest,
        generate_station_report station_id facilities stations now routeAlertsResult post =
          "__error__: " ++ rest) ∧
    ((∀ p, ∃ e, post p = Except.error e) →
      ∃ rest,
        generate_station_report station_id facilities stations now routeAlertsResult post =
          "__error__: " ++ rest) := by
  constructor
  · intro e he
    rw [he]
    exact ⟨e, rfl⟩
  · intro hpost
    cases routeAlertsResult with
    | error e => exact ⟨e, rfl⟩
    | ok sa => exact sentinel_of_post_error post _ (hpost _)

/-- Witness for C7: a simulated backend timeout on the route-alert fetch
yields a sentinel-prefixed string. -/
theorem c7_report_error_sentinel_witness :
    ∃ rest,
      generate_station_report "place-alfcl" [] [] 0
          (Except.error "ReadTimeout: generation backend timed out")
          (fun p => Except.ok p) =
        "__error__: " ++ rest :=
  (c7_report_error_sentinel "place-alfcl" [] [] 0
      (Except.error "ReadTimeout: generation backend timed out") (fun p => Except.ok p)).1
    "ReadTimeout: generation backend timed out" rfl

/-! ### C3: contradiction detection in the prompt -/

theorem append3_infix (x y z : String) :
    ∃ p q : List Char, p ++ y.data ++ q = (x ++ y ++ z).data :=
  ⟨x.data, z.data, by simp [String.data_append]⟩

theorem chars_infix_trans {a b c : List Char}
    (h1 : ∃ p q, p ++ a ++ q = b) (h2 : ∃ p q, p ++ b ++ q = c) :
    ∃ p q, p ++ a ++ q = c := by
  obtain ⟨p1, q1, e1⟩ := h1
  obtain ⟨p2, q2, e2⟩ := h2
  refine ⟨p2 ++ p1, q1 ++ q2, ?_⟩
  rw [← e2, ← e1]
  simp [List.append_assoc]

theorem mem_joinNL (lines : List String) (l : String) (h : l ∈ lines) :
    ∃ pre post : List Char, pre ++ l.data ++ post = (joinNL lines).data := by
  induction lines with
  | nil => simp at h
  | cons s rest ih =>
    cases rest with
    | nil =>
      have he : l = s := by simpa using h
      exact ⟨[], [], by simp [he, joinNL]⟩
    | cons s2 rest2 =>
      rcases List.mem_cons.mp h with he | hr
      · refine ⟨[], ("\n" ++ joinNL (s2 :: rest2)).data, ?_⟩
        have hj : joinNL (s :: s2 :: rest2) = s ++ "\n" ++ joinNL (s2 :: rest2) := rfl
        rw [hj, he]
        simp [String.data_append, List.append_assoc]
      · obtain ⟨pre, post, hpp⟩ := ih hr
        refine ⟨s.data ++ ("\n" : String).data ++ pre, post, ?_⟩
        have hj : joinNL (s :: s2 :: rest2) = s ++ "\n" ++ joinNL (s2 :: rest2) := rfl
        rw [hj]
        simp [String.data_append, ← hpp, List.append_assoc]

/-- C3 (amended): when an out-of-service facility's rendered instruction
text contains the short identifier of at least one other out-of-service
facility, its line — and hence the composed prompt — carries an explicit
warning referencing the short identifier of one such facility.  (The scan
breaks at its first match, so when several other identifiers occur in the
text exactly one of them is warned about.) -/
theorem c3_contradiction_warning (station_name : String) (fs : List Facility)
    (stats : SystemStats) (sa : List ServiceAlert) (now : Int)
    (f : Facility) (al : AlertSummary) (hmem : f ∈ fs)
    (hst : f.status ≠ "operational") (hal : f.alert = some al)
    (hdesc : pyStrip (al.description.getD "") ≠ "")
    (oid : String) (hoid : oid ∈ out_of_service_ids fs) (hne : oid ≠ thisIdOf f)
    (hsub : containsSub oid.data (pyLower (pyStrip (al.description.getD ""))).data = true) :
    ∃ oid', oid' ∈ out_of_service_ids fs ∧ oid' ≠ thisIdOf f ∧
      containsSub oid'.data (pyLower (pyStrip (al.description.getD ""))).data = true ∧
      (∃ pre post : List Char, pre ++ (warnText oid').data ++ post =
        (_build_station_prompt station_name fs stats sa now).data) := by
  have hPoid : (containsSub oid.data (pyLower (pyStrip (al.description.getD ""))).data &&
      decide (oid ≠ thisIdOf f)) = true := by
    rw [hsub, decide_eq_true hne]
    rfl
  have hsome : ((out_of_service_ids fs).find?
      (fun oid => containsSub oid.data (pyLower (pyStrip (al.description.getD ""))).data &&
        decide (oid ≠ thisIdOf f))).isSome = true := by
    rw [List.find?_isSome]
    exact ⟨oid, hoid, hPoid⟩
  obtain ⟨oid', hfindO⟩ := Option.isSome_iff_exists.mp hsome
  have hmemO : oid' ∈ out_of_service_ids fs := List.mem_of_find?_eq_some hfindO
  have hPO := List.find?_some hfindO
  simp only [Bool.and_eq_true, decide_eq_true_eq] at hPO
  obtain ⟨lpre, hline⟩ : ∃ lpre : String,
      facilityLine (out_of_service_ids fs) now f = lpre ++ warnText oid' :=
    ⟨_, by
      simp only [facilityLine, hal]
      rw [if_pos hst, if_pos hdesc, hfindO]⟩
  refine ⟨oid', hmemO, hPO.2, hPO.1, ?_⟩
  have h1 : ∃ p q : List Char,
      p ++ (warnText oid').data ++ q = (facilityLine (out_of_service_ids fs) now f).data :=
    ⟨lpre.data, [], by rw [hline]; simp [String.data_append]⟩
  have h2 : ∃ p q : List Char,
      p ++ (facilityLine (out_of_service_ids fs) now f).data ++ q =
        (joinNL (fs.map (facilityLine (out_of_service_ids fs) now))).data :=
    mem_joinNL _ _ (List.mem_map_of_mem _ hmem)
  have hblock : (if fs.map (facilityLine (out_of_service_ids fs) now) = [] then "(none)"
      else joinNL (fs.map (facilityLine (out_of_service_ids fs) now))) =
      joinNL (fs.map (facilityLine (out_of_service_ids fs) now)) :=
    if_neg (fun hx => List.ne_nil_of_mem (List.mem_map_of_mem _ hmem) hx)
  have h3 : ∃ p q : List Char,
      p ++ (joinNL (fs.map (facilityLine (out_of_service_ids fs) now))).data ++ q =
        (_build_station_prompt station_name fs stats sa now).data := by
    simp only [_build_station_prompt]
    rw [hblock]
    exact append3_infix _ _ _
  exact chars_infix_trans (chars_infix_trans h1 h2) h3

/-- Out-of-service facility 1 whose remediation text names both elevator 2
and elevator 3. -/
def c3FacA : Facility :=
  { id := "1", type := some "ELEVATOR", name := some "Elevator 1", short_name := none,
    stop_id := some "place-x", station_name := "X", status := "out_of_service",
    alert := some
      { id := "AA", header := none, description := some "Use elevator 2 or elevator 3",
        severity := none, cause := none, effect := none, updated_at := none,
        active_period := [], outage_start := none } }

/-- Out-of-service facility 2 (short identifier "elevator 2"). -/
def c3FacB : Facility :=
  { id := "2", type := some "ELEVATOR", name := some "Elevator 2", short_name := none,
    stop_id := some "place-x", station_name := "X", status := "out_of_service",
    alert := some
      { id := "AB", header := none, description := none, severity := none, cause := none,
        effect := none, updated_at := none, active_period := [], outage_start := none } }

/-- Out-of-service facility 3 (short identifier "elevator 3"). -/
def c3FacC : Facility :=
  { id := "3", type := some "ELEVATOR", name := some "Elevator 3", short_name := none,
    stop_id := some "place-x", station_name := "X", status := "out_of_service",
    alert := some
      { id := "AC", header := none, description := none, severity := none, cause := none,
        effect := none, updated_at := none, active_period := [], outage_start := none } }

/-- Counterexample for C3 as stated: facility 1's instruction text contains
the short identifiers of two other out-of-service facilities, but the
rendered line warns only about "elevator 2" — it contains no warning
referencing "elevator 3". -/
theorem c3_counterexample :
    thisIdOf c3FacC = "elevator 3" ∧
    c3FacC.status = "out_of_service" ∧
    "elevator 3" ≠ thisIdOf c3FacA ∧
    containsSub "elevator 3".data
        (pyLower (pyStrip "Use elevator 2 or elevator 3")).data = true ∧
    containsSub (warnText "elevator 3").data
        (facilityLine (out_of_service_ids [c3FacA, c3FacB, c3FacC]) 0 c3FacA).data = false ∧
    containsSub (warnText "elevator 2").data
        (facilityLine (out_of_service_ids [c3FacA, c3FacB, c3FacC]) 0 c3FacA).data = true := by
  decide

/-- Witness for the amended C3, at the same fixture: some other
out-of-service facility's identifier gets an explicit warning inside the
composed prompt. -/
theorem c3_contradiction_warning_witness :
    ∃ oid', oid' ∈ out_of_service_ids [c3FacA, c3FacB, c3FacC] ∧ oid' ≠ thisIdOf c3FacA ∧
      containsSub oid'.data
        (pyLower (pyStrip ((c3FacA.alert.getD
          { id := "", header := none, description := none, severity := none, cause := none,
            effect := none, updated_at := none, active_period := [],
            outage_start := none }).description.getD ""))).data = true ∧
      (∃ pre post : List Char, pre ++ (warnText oid').data ++ post =
        (_build_station_prompt "X" [c3FacA, c3FacB, c3FacC]
          { total_stations := 1, stations_with_outages := 1, total_facilities := 3,
            total_out_of_service := 3 } [] 0).data) := by
  have h := c3_contradiction_warning "X" [c3FacA, c3FacB, c3FacC]
    { total_stations := 1, stations_with_outages := 1, total_facilities := 3,
      total_out_of_service := 3 } [] 0 c3FacA
    { id := "AA", header := none, description := some "Use elevator 2 or elevator 3",
      severity := none, cause := none, effect := none, updated_at := none,
      active_period := [], outage_start := none }
    (by decide) (by decide) rfl (by decide) "elevator 2" (by decide) (by decide) (by decide)
  exact h

/-! ### C8: the NOT ACCESSIBLE notice (modelled from the spec) -/

/-- C8 (spec-modelled): when the station's wheelchair-boarding flag equals 2,
the composed prompt starts with an explicit "NOT ACCESSIBLE" notice,
whatever the station's facility statuses are. -/
theorem c8_not_accessible_notice (station_name : String) (fs : List Facility)
    (stats : SystemStats) (sa : List ServiceAlert) (now : Int) :
    ∃ rest,
      buildPromptWheelchair 2 station_name fs stats sa now = "NOT ACCESSIBLE" ++ rest := by
  refine ⟨": this station is classified as permanently inaccessible.\n\n" ++
    _build_station_prompt station_name fs stats sa now, ?_⟩
  simp only [buildPromptWheelchair, if_pos rfl]
  rw [← String.append_assoc]
  rfl

/-! ### C9: clock dependence of the prompt builder -/

/-- System-wide stats used by the clock-dependence fixtures. -/
def c9Stats : SystemStats :=
  { total_stations := 1, stations_with_outages := 1, total_facilities := 1,
    total_out_of_service := 1 }

/-- An alert summary with an outage start. -/
def c9Sum : AlertSummary :=
  { id := "A1", header := some "Elevator 701 unavailable",
    description := some "Use the ramp", severity := some 7,
    cause := some "MAINTENANCE", effect := some "ELEVATOR_CLOSURE",
    updated_at := none,
    active_period := [{ start := some "2024-01-01T00:00:00", stop := none }],
    outage_start := some "2024-01-01T00:00:00" }

/-- An out-of-service facility whose alert carries an outage start. -/
def c9Fac : Facility :=
  { id := "701", type := some "ELEVATOR", name := some "Alewife Elevator 701",
    short_name := some "Elevator 701", stop_id := some "place-alfcl",
    station_name := "Alewife", status := "out_of_service", alert := some c9Sum }

/-- The "whole days" bucket of `_format_duration`, as a standalone fact. -/
theorem format_duration_days_bucket (ts : String) (start now : Int)
    (hp : fromisoformat (pySlice ts 19) = some start)
    (h0 : 86400 ≤ now - start) (h1 : now - start < 2592000) :
    _format_duration (some ts) now =
      some (toString ((now - start) / 86400) ++ " day" ++
        (if (now - start) / 86400 ≠ 1 then "s" else "")) := by
  have hne : ts ≠ "" := by
    intro h
    rw [h] at hp
    have hz : fromisoformat (pySlice "" 19) = none := by decide
    rw [hz] at hp
    exact Option.noConfusion hp
  have hcast : ((now : ℚ) - (start : ℚ)) = ((now - start : Int) : ℚ) := by push_cast; ring
  have e1 : ((now - start : Int) : ℚ) / 60 / 60 = ((now - start : Int) : ℚ) / 3600 := by
    ring
  have e2 : ((now - start : Int) : ℚ) / 3600 / 24 = ((now - start : Int) : ℚ) / 86400 := by
    ring
  simp only [_format_duration, if_neg hne, hp, hcast]
  have hq0 : (86400 : ℚ) ≤ ((now - start : Int) : ℚ) := by exact_mod_cast h0
  have hq1 : ((now - start : Int) : ℚ) < 2592000 := by exact_mod_cast h1
  rw [if_neg (not_lt.mpr (div_nonneg (by linarith) (by norm_num)))]
  rw [if_neg (not_lt.mpr (by rw [le_div_iff₀ (by norm_num : (0:ℚ) < 60)]; linarith))]
  rw [e1]
  rw [if_neg (not_lt.mpr (by rw [le_div_iff₀ (by norm_num : (0:ℚ) < 3600)]; linarith))]
  rw [e2]
  rw [if_pos (by rw [div_lt_iff₀ (by norm_num : (0:ℚ) < 86400)]; linarith)]
  have hpy : pyInt (((now - start : Int) : ℚ) / 86400) = (now - start) / 86400 := by
    have h' := pyInt_intCast_div_natCast (now - start) 86400 (by linarith)
    rwa [show ((86400:ℕ):ℚ) = (86400:ℚ) by norm_num,
      show ((86400:ℕ):ℤ) = (86400:ℤ) by norm_num] at h'
  rw [hpy]

set_option maxRecDepth 100000 in
/-- Counterexample for C9 as stated: two invocations with identical station
name, facility list and service alerts, at clock readings 3 days and 10 days
after the outage start, produce different prompt texts — the prompt depends
on `datetime.utcnow()`. -/
theorem c9_counterexample :
    _build_station_prompt "Alewife" [c9Fac] c9Stats [] 1704326400 ≠
      _build_station_prompt "Alewife" [c9Fac] c9Stats [] 1704931200 := by
  have hp : fromisoformat (pySlice "2024-01-01T00:00:00" 19) = some 1704067200 := by decide
  have h3 : _format_duration (some "2024-01-01T00:00:00") 1704326400 = some "3 days" := by
    rw [format_duration_days_bucket "2024-01-01T00:00:00" 1704067200 1704326400 hp
      (by decide) (by decide)]
    decide
  have h10 : _format_duration (some "2024-01-01T00:00:00") 1704931200 = some "10 days" := by
    rw [format_duration_days_bucket "2024-01-01T00:00:00" 1704067200 1704931200 hp
      (by decide) (by decide)]
    decide
  have l1 : facilityLine (out_of_service_ids [c9Fac]) 1704326400 c9Fac =
      "- ELEVATOR \"Alewife Elevator 701\": OUT OF SERVICE (down 3 days)\n  Cause: MAINTENANCE\n  Alert: Elevator 701 unavailable\n  MBTA instructions: Use the ramp" := by
    simp only [facilityLine, show c9Fac.alert = some c9Sum from rfl]
    rw [show c9Sum.outage_start = some "2024-01-01T00:00:00" from rfl, h3]
    decide
  have l2 : facilityLine (out_of_service_ids [c9Fac]) 1704931200 c9Fac =
      "- ELEVATOR \"Alewife Elevator 701\": OUT OF SERVICE (down 10 days)\n  Cause: MAINTENANCE\n  Alert: Elevator 701 unavailable\n  MBTA instructions: Use the ramp" := by
    simp only [facilityLine, show c9Fac.alert = some c9Sum from rfl]
    rw [show c9Sum.outage_start = some "2024-01-01T00:00:00" from rfl, h10]
    decide
  have e : ∀ t : Int, _build_station_prompt "Alewife" [c9Fac] c9Stats [] t =
      promptIntro "Alewife" ([c9Fac].countP (fun f => decide (f.type = some "ELEVATOR")))
        ([c9Fac].countP (fun f => decide (f.type = some "ESCALATOR")))
        ([c9Fac].countP (fun f => decide (f.status = "out_of_service")))
        ([c9Fac].countP
          (fun f => decide (f.type = some "ELEVATOR" ∧ f.status = "out_of_service"))) ++
      facilityLine (out_of_service_ids [c9Fac]) t c9Fac ++ promptTail "(none)" :=
    fun t => rfl
  intro heq
  have heq' := congrArg String.data ((e 1704326400).symm.trans (heq.trans (e 1704931200)))
  simp only [String.data_append] at heq'
  have hmid := List.append_cancel_left (List.append_cancel_right heq')
  have hlines : facilityLine (out_of_service_ids [c9Fac]) 1704326400 c9Fac =
      facilityLine (out_of_service_ids [c9Fac]) 1704931200 c9Fac := String.ext hmid
  rw [l1, l2] at hlines
  exact absurd hlines (by decide)

/-- C9 (amended): `_build_station_prompt` performs no I/O but reads the
clock through `_format_duration`; it is deterministic given its inputs
together with `now`, and the prompt depends on the clock only through the
rendered outage durations — when no facility both lacks operational status
and carries an alert with an outage-start timestamp, any two clock readings
give identical prompts. -/
theorem c9_prompt_clock_dependence (station_name : String) (fs : List Facility)
    (stats : SystemStats) (sa : List ServiceAlert) (t₁ t₂ : Int)
    (h : ∀ f ∈ fs, f.status = "operational" ∨ f.alert.bind AlertSummary.outage_start = none) :
    _build_station_prompt station_name fs stats sa t₁ =
      _build_station_prompt station_name fs stats sa t₂ := by
  have hfd : ∀ t : Int, _format_duration none t = none := fun t => rfl
  have hline : ∀ f ∈ fs, facilityLine (out_of_service_ids fs) t₁ f =
      facilityLine (out_of_service_ids fs) t₂ f := by
    intro f hf
    cases hal : f.alert with
    | none => simp [facilityLine, hal]
    | some alert =>
      rcases h f hf with hop | hnone
      · have hst : ¬(f.status ≠ "operational") := by simp [hop]
        simp only [facilityLine, hal, if_neg hst]
      · have hos : alert.outage_start = none := by
          rw [hal] at hnone
          simpa using hnone
        simp only [facilityLine, hal, hos, hfd]
  have hmap : fs.map (facilityLine (out_of_service_ids fs) t₁) =
      fs.map (facilityLine (out_of_service_ids fs) t₂) :=
    List.map_congr_left hline
  simp only [_build_station_prompt]
  rw [hmap]

/-- Witness for the amended C9: with one operational facility, the prompt is
the same at two different clock readings. -/
theorem c9_prompt_clock_dependence_witness :
    _build_station_prompt "Alewife" [exFac702] c9Stats [] 0 =
      _build_station_prompt "Alewife" [exFac702] c9Stats [] 1704326400 :=
  c9_prompt_clock_dependence "Alewife" [exFac702] c9Stats [] 0 1704326400 (by decide)
